import Mathlib

/-!
Verification of the QuizGen (SmartQuizGenerator) client application.

The development shallowly embeds the TypeScript sources:
JavaScript strings are modelled as `List Char`, JavaScript objects as
structures, `undefined`/missing values as `Option`, and thrown
exceptions as `Except`.  Each embedded definition is annotated with the
source file and symbol it translates.
-/

namespace QuizGen

/-- JavaScript strings, modelled as lists of characters. -/
abbrev Str := List Char

/-- The whitespace characters removed by JavaScript `String.prototype.trim`
(space, tab, line feed, carriage return, vertical tab, form feed). -/
def isJsWhitespace (c : Char) : Bool :=
  c.toNat = 32 || c.toNat = 9 || c.toNat = 10 || c.toNat = 13 ||
  c.toNat = 11 || c.toNat = 12

/-- JavaScript `s.trim()`: drop leading and trailing whitespace. -/
def jsTrim (s : Str) : Str :=
  ((s.dropWhile isJsWhitespace).reverse.dropWhile isJsWhitespace).reverse

/-- JavaScript `s.toLowerCase()` (character-wise lowering). -/
def jsToLower (s : Str) : Str := s.map Char.toLower

/-- Models the JavaScript expression `e || null` for `e : string | undefined |
null`: the empty string is falsy and collapses to `null`. -/
def jsStrOrNull (x : Option Str) : Option Str :=
  match x with
  | some s => if s = [] then none else some s
  | none => none

/-! ## Data model (src/types.ts) -/

/-- The union type `QuestionType` of src/types.ts line 1: exactly the three
string literals `multiple-choice`, `fill-in-the-blank` and `essay`. -/
inductive QuestionType where
  | multipleChoice
  | fillInTheBlank
  | essay
deriving DecidableEq, Repr

/-- The string literal denoted by each member of the `QuestionType` union. -/
def QuestionType.toStr : QuestionType → String
  | .multipleChoice => "multiple-choice"
  | .fillInTheBlank => "fill-in-the-blank"
  | .essay => "essay"

/-- Interface `Question` of src/types.ts lines 3-11. -/
structure Question where
  type : QuestionType
  question_text : Str
  image_description : Option Str := none
  passage_index : Option Nat := none
  options : Option (List Str) := none
  correct_answer : Str
  explanation : Str

/-- Interface `Quiz` of src/types.ts lines 13-19. -/
structure Quiz where
  id : Str
  title : Str
  passage : Option Str := none
  passages : Option (List Str) := none
  questions : List Question

/-- Interface `StudentAnswer` of src/types.ts lines 21-23: a map from
question index to the student's answer string (absent keys read as
`undefined`). -/
def StudentAnswer := Nat → Option Str

/-- Interface `QuizResult` of src/types.ts lines 25-30. -/
structure QuizResult where
  score : Nat
  total : Nat
  answers : StudentAnswer
  gradableQuestions : Nat

/-- The JavaScript read `answers[index] || ''` used by grading: an absent
answer (and the empty answer) reads as the empty string. -/
def getAnswer (answers : StudentAnswer) (index : Nat) : Str :=
  (answers index).getD []

/-! ## Grading (src/pages/QuizPage.tsx, `handleSubmit`, lines 134-155) -/

/-- The `quiz.questions.forEach((q, index) => ...)` loop body of
`handleSubmit`: accumulates `(score, gradableQuestions)` over the questions,
mirroring the source statement for statement. -/
def gradeLoop (answers : StudentAnswer) :
    List Question → Nat → Nat × Nat → Nat × Nat
  | [], _, acc => acc
  | q :: rest, index, acc =>
    if q.type == QuestionType.multipleChoice
        || q.type == QuestionType.fillInTheBlank then
      let userAnswer := jsToLower (jsTrim (getAnswer answers index))
      let correctAnswer := jsToLower (jsTrim q.correct_answer)
      if userAnswer == correctAnswer then
        gradeLoop answers rest (index + 1) (acc.1 + 1, acc.2 + 1)
      else
        gradeLoop answers rest (index + 1) (acc.1, acc.2 + 1)
    else
      gradeLoop answers rest (index + 1) acc

/-- `handleSubmit` of src/pages/QuizPage.tsx lines 134-155 (the locally
computed result; the trailing `setResult`/`scrollTo` effects carry this
value). -/
def handleSubmit (quiz : Quiz) (answers : StudentAnswer) : QuizResult :=
  let acc := gradeLoop answers quiz.questions 0 (0, 0)
  { score := acc.1
    total := quiz.questions.length
    answers := answers
    gradableQuestions := acc.2 }

/-- A question counts toward `gradableQuestions`: its type is
`multiple-choice` or `fill-in-the-blank`. -/
def isGradable (q : Question) : Bool :=
  q.type == QuestionType.multipleChoice || q.type == QuestionType.fillInTheBlank

/-- Normalisation applied by grading to both sides of the comparison:
trim, then lowercase. -/
def normalizeAnswer (s : Str) : Str := jsToLower (jsTrim s)

/-- The predicate deciding whether the indexed question is gradable and
answered correctly after normalisation. -/
def answeredCorrectly (answers : StudentAnswer) (p : Nat × Question) : Bool :=
  isGradable p.2 &&
    (normalizeAnswer (getAnswer answers p.1) == normalizeAnswer p.2.correct_answer)

theorem gradeLoop_eq (answers : StudentAnswer) (qs : List Question) :
    ∀ (index s g : Nat),
      gradeLoop answers qs index (s, g) =
        (s + ((qs.enumFrom index).countP (answeredCorrectly answers)),
         g + qs.countP isGradable) := by
  induction qs with
  | nil => intro index s g; simp [gradeLoop]
  | cons q rest ih =>
    intro index s g
    simp only [gradeLoop, List.enumFrom_cons, List.countP_cons]
    by_cases hg : (q.type == QuestionType.multipleChoice
        || q.type == QuestionType.fillInTheBlank) = true
    · simp only [hg, if_true]
      by_cases hc : (jsToLower (jsTrim (getAnswer answers index)) ==
          jsToLower (jsTrim q.correct_answer)) = true
      · simp only [hc, if_true, ih]
        have hp : answeredCorrectly answers (index, q) = true := by
          simp [answeredCorrectly, isGradable, normalizeAnswer, hg, hc]
        simp [hp, isGradable, hg]
        omega
      · simp only [hc, if_false, ih]
        have hp : answeredCorrectly answers (index, q) = false := by
          simp only [answeredCorrectly, isGradable, normalizeAnswer]
          simp only [Bool.and_eq_false_iff]
          right
          simpa using hc
        simp [hp, isGradable, hg]
        omega
    · simp only [hg, if_false, ih]
      have hp : answeredCorrectly answers (index, q) = false := by
        simp only [answeredCorrectly, isGradable]
        simp only [Bool.and_eq_false_iff]
        left
        simpa using hg
      simp [hp, isGradable, hg]

/-- C1: for every quiz and answer map, the result computed by `handleSubmit`
has `gradableQuestions` equal to the number of multiple-choice or
fill-in-the-blank questions, `score` equal to the number of such gradable
questions whose (trimmed, lowercased) student answer — the empty string when
absent — equals the (trimmed, lowercased) `correct_answer`, and `total` equal
to the number of questions; essay questions satisfy neither counting
predicate, so they contribute to neither `score` nor `gradableQuestions`. -/
theorem handleSubmit_result_spec (quiz : Quiz) (answers : StudentAnswer) :
    (handleSubmit quiz answers).gradableQuestions =
        quiz.questions.countP isGradable ∧
    (handleSubmit quiz answers).score =
        (quiz.questions.enum.countP (answeredCorrectly answers)) ∧
    (handleSubmit quiz answers).total = quiz.questions.length ∧
    (∀ q : Question, q.type = QuestionType.essay →
        isGradable q = false ∧
        ∀ i : Nat, answeredCorrectly answers (i, q) = false) := by
  have h := gradeLoop_eq answers quiz.questions 0 0 0
  refine ⟨?_, ?_, rfl, ?_⟩
  · have h2 := congrArg Prod.snd h
    simp only [handleSubmit]
    simpa using h2
  · have h1 := congrArg Prod.fst h
    simp only [handleSubmit, List.enum]
    simpa using h1
  · intro q hq
    constructor
    · simp [isGradable, hq]
    · intro i
      simp [answeredCorrectly, isGradable, hq]

/-! ## String lemmas for grading invariance (C8) -/

theorem dropWhile_append_all {p : Char → Bool} {l1 : Str} (l2 : Str)
    (h : ∀ c ∈ l1, p c = true) :
    (l1 ++ l2).dropWhile p = l2.dropWhile p := by
  rw [List.dropWhile_append]
  have : l1.dropWhile p = [] := List.dropWhile_eq_nil_iff.mpr h
  simp [this]

theorem dropWhile_append_of_not_nil {p : Char → Bool} {l1 : Str} (l2 : Str)
    (h : l1.dropWhile p ≠ []) :
    (l1 ++ l2).dropWhile p = l1.dropWhile p ++ l2 := by
  rw [List.dropWhile_append]
  simp [List.isEmpty_iff, h]

theorem jsTrim_ws_left {padL : Str} (s : Str)
    (h : ∀ c ∈ padL, isJsWhitespace c = true) :
    jsTrim (padL ++ s) = jsTrim s := by
  simp only [jsTrim]
  rw [dropWhile_append_all s h]

theorem jsTrim_ws_right {padR : Str} (s : Str)
    (h : ∀ c ∈ padR, isJsWhitespace c = true) :
    jsTrim (s ++ padR) = jsTrim s := by
  simp only [jsTrim]
  by_cases hd : s.dropWhile isJsWhitespace = []
  · have hall : ∀ c ∈ s, isJsWhitespace c = true :=
      List.dropWhile_eq_nil_iff.mp hd
    have hd2 : (s ++ padR).dropWhile isJsWhitespace = [] := by
      refine List.dropWhile_eq_nil_iff.mpr ?_
      intro c hc
      rcases List.mem_append.mp hc with hc | hc
      · exact hall c hc
      · exact h c hc
    rw [hd, hd2]
  · rw [dropWhile_append_of_not_nil padR hd]
    rw [List.reverse_append]
    have hrev : ∀ c ∈ padR.reverse, isJsWhitespace c = true := by
      intro c hc
      exact h c (List.mem_reverse.mp hc)
    rw [dropWhile_append_all _ hrev]

theorem jsTrim_pad {padL padR : Str} (s : Str)
    (hL : ∀ c ∈ padL, isJsWhitespace c = true)
    (hR : ∀ c ∈ padR, isJsWhitespace c = true) :
    jsTrim (padL ++ s ++ padR) = jsTrim s := by
  rw [List.append_assoc, jsTrim_ws_left (s ++ padR) hL, jsTrim_ws_right s hR]

/-- Bounded evaluation fact about `Char.ofNat` used to reason about
`Char.toLower` on the ASCII range. -/
theorem char_ofNat_toNat_small : ∀ m < 123, (Char.ofNat m).toNat = m := by decide

/-- Lowercasing never moves a character into or out of the whitespace set. -/
theorem isJsWhitespace_toLower (c : Char) :
    isJsWhitespace (Char.toLower c) = isJsWhitespace c := by
  by_cases h : 65 ≤ c.toNat ∧ c.toNat ≤ 90
  · have hlt : Char.toLower c = Char.ofNat (c.toNat + 32) := by
      simp only [Char.toLower]
      rw [if_pos]
      exact ⟨h.1, h.2⟩
    have hr : (Char.ofNat (c.toNat + 32)).toNat = c.toNat + 32 :=
      char_ofNat_toNat_small _ (by omega)
    rw [hlt]
    simp only [isJsWhitespace, hr]
    have hfalse1 : isJsWhitespace c = false := by
      simp only [isJsWhitespace]
      simp only [Bool.or_eq_false_iff, decide_eq_false_iff_not]
      omega
    simp only [isJsWhitespace] at hfalse1
    rw [hfalse1]
    simp only [Bool.or_eq_false_iff, decide_eq_false_iff_not]
    omega
  · have hlt : Char.toLower c = c := by
      simp only [Char.toLower]
      rw [if_neg]
      intro hc
      exact h ⟨hc.1, hc.2⟩
    rw [hlt]

/-- Trimming commutes with character-wise lowercasing. -/
theorem jsTrim_jsToLower (s : Str) :
    jsTrim (jsToLower s) = jsToLower (jsTrim s) := by
  have hw : (isJsWhitespace ∘ Char.toLower) = isJsWhitespace := by
    funext c
    exact isJsWhitespace_toLower c
  simp only [jsTrim, jsToLower]
  rw [List.dropWhile_map, hw, ← List.map_reverse, List.dropWhile_map, hw,
    ← List.map_reverse]

theorem normalizeAnswer_pad {padL padR : Str} (s : Str)
    (hL : ∀ c ∈ padL, isJsWhitespace c = true)
    (hR : ∀ c ∈ padR, isJsWhitespace c = true) :
    normalizeAnswer (padL ++ s ++ padR) = normalizeAnswer s := by
  simp only [normalizeAnswer]
  rw [jsTrim_pad s hL hR]

theorem normalizeAnswer_case_congr {s t : Str}
    (h : jsToLower s = jsToLower t) :
    normalizeAnswer s = normalizeAnswer t := by
  simp only [normalizeAnswer]
  rw [← jsTrim_jsToLower, ← jsTrim_jsToLower, h]

/-- C8: grading is invariant under answer formatting.  The score and the
gradable-question count computed by `handleSubmit` depend only on the
normalised answers (conjuncts 1 and 2); normalisation erases leading and
trailing whitespace (conjunct 3) and letter case (conjunct 4); and a missing
answer is read as the empty string (conjunct 5). -/
theorem handleSubmit_formatting_invariant (quiz : Quiz) (a1 a2 : StudentAnswer)
    (h : ∀ i, normalizeAnswer (getAnswer a1 i) = normalizeAnswer (getAnswer a2 i)) :
    (handleSubmit quiz a1).score = (handleSubmit quiz a2).score ∧
    (handleSubmit quiz a1).gradableQuestions =
        (handleSubmit quiz a2).gradableQuestions ∧
    (∀ (padL padR s : Str), (∀ c ∈ padL, isJsWhitespace c = true) →
        (∀ c ∈ padR, isJsWhitespace c = true) →
        normalizeAnswer (padL ++ s ++ padR) = normalizeAnswer s) ∧
    (∀ s t : Str, jsToLower s = jsToLower t →
        normalizeAnswer s = normalizeAnswer t) ∧
    (∀ i, a1 i = none → getAnswer a1 i = []) := by
  have hpred : answeredCorrectly a1 = answeredCorrectly a2 := by
    funext p
    simp only [answeredCorrectly, h p.1]
  have h1 := gradeLoop_eq a1 quiz.questions 0 0 0
  have h2 := gradeLoop_eq a2 quiz.questions 0 0 0
  refine ⟨?_, ?_, ?_, ?_, ?_⟩
  · have e1 := congrArg Prod.fst h1
    have e2 := congrArg Prod.fst h2
    simp only [handleSubmit]
    simp only at e1 e2
    rw [e1, e2, hpred]
  · have e1 := congrArg Prod.snd h1
    have e2 := congrArg Prod.snd h2
    simp only [handleSubmit]
    simp only at e1 e2
    rw [e1, e2]
  · intro padL padR s hL hR
    exact normalizeAnswer_pad s hL hR
  · intro s t hst
    exact normalizeAnswer_case_congr hst
  · intro i hi
    simp [getAnswer, hi]

/-- A concrete quiz used to instantiate the grading-invariance theorem. -/
def witnessQuiz : Quiz :=
  { id := "q1".toList
    title := "Witness".toList
    questions :=
      [{ type := QuestionType.fillInTheBlank
         question_text := "Name the animal".toList
         correct_answer := "Cat".toList
         explanation := "a cat".toList }] }

/-- An answer map with extra whitespace and different letter case. -/
def witnessAnswersA : StudentAnswer :=
  fun i => if i = 0 then some "  cAt ".toList else none

/-- The plain form of the same answers. -/
def witnessAnswersB : StudentAnswer :=
  fun i => if i = 0 then some "cat".toList else none

theorem handleSubmit_formatting_invariant_witness :
    (handleSubmit witnessQuiz witnessAnswersA).score =
      (handleSubmit witnessQuiz witnessAnswersB).score :=
  (handleSubmit_formatting_invariant witnessQuiz witnessAnswersA witnessAnswersB
    (by
      intro i
      cases i with
      | zero => decide
      | succ n => rfl)).1

/-! ## Passage lookup (src/types.ts lines 33-48) -/

/-- `getPassageForQuestion` of src/types.ts lines 33-43.  The outer `Option`
models the JavaScript runtime: the result is `none` exactly when
`quiz.questions[questionIndex]` is `undefined` and the subsequent read of
`question.passage_index` throws a TypeError.  `expr || null` on the string
results is modelled by `jsStrOrNull`. -/
def getPassageForQuestion (quiz : Quiz) (questionIndex : Nat) :
    Option (Option Str) :=
  match quiz.questions.get? questionIndex with
  | none => none
  | some question =>
    some
      (match question.passage_index, quiz.passages with
       | some pi, some ps =>
         if 0 < ps.length then jsStrOrNull (ps.get? pi)
         else jsStrOrNull quiz.passage
       | _, _ => jsStrOrNull quiz.passage)

/-- `hasMultiplePassages` of src/types.ts lines 46-48. -/
def hasMultiplePassages (quiz : Quiz) : Bool :=
  match quiz.passages with
  | some ps => decide (1 < ps.length)
  | none => false

/-- The passage lookup exactly as claim C5 words it (for comparison with the
source function): the passage at the question's `passage_index` whenever the
question has one and the `passages` array is non-empty, `null` when that
index has no entry, and otherwise the legacy `passage`, or `null` when it is
absent. -/
def getPassageForQuestionClaimed (quiz : Quiz) (questionIndex : Nat) :
    Option (Option Str) :=
  match quiz.questions.get? questionIndex with
  | none => none
  | some question =>
    some
      (match question.passage_index, quiz.passages with
       | some pi, some ps =>
         if 0 < ps.length then ps.get? pi
         else quiz.passage
       | _, _ => quiz.passage)

/-- The passage lookup as amended: like the claimed description, except that
an empty-string entry at `passage_index` — and an empty legacy passage — are
collapsed to `null` (the JavaScript `|| null` treats the empty string as
falsy). -/
def getPassageForQuestionAmendedSpec (quiz : Quiz) (question : Question) :
    Option Str :=
  match question.passage_index, quiz.passages with
  | some pi, some ps =>
    if 0 < ps.length then
      match ps.get? pi with
      | some p => if p = [] then none else some p
      | none => none
    else
      match quiz.passage with
      | some p => if p = [] then none else some p
      | none => none
  | _, _ =>
    match quiz.passage with
    | some p => if p = [] then none else some p
    | none => none

/-- A quiz whose single question points at a passage entry holding the empty
string. -/
def emptyPassageQuiz : Quiz :=
  { id := "q".toList
    title := "t".toList
    passages := some [[]]
    questions :=
      [{ type := QuestionType.essay
         question_text := []
         passage_index := some 0
         correct_answer := []
         explanation := [] }] }

/-- C5 counterexample: at a quiz whose `passages` array holds one empty
string and whose question has `passage_index` 0, the claimed description
returns that empty passage, but the source function returns `null` (the
JavaScript `|| null` collapses the falsy empty string). -/
theorem getPassageForQuestion_claim_counterexample :
    getPassageForQuestionClaimed emptyPassageQuiz 0 = some (some []) ∧
    getPassageForQuestion emptyPassageQuiz 0 = some none := by
  constructor
  · rfl
  · rfl

/-- C5 (amended): for every quiz and in-bounds question index, the source
`getPassageForQuestion` returns the passage at the question's
`passage_index` whenever the question has one and `passages` is non-empty —
with `null` when that index has no entry or the entry is the empty string —
and otherwise falls back to the legacy `passage` when present and non-empty,
`null` otherwise; and `hasMultiplePassages` is true exactly when the
`passages` array exists with length greater than one. -/
theorem getPassageForQuestion_spec (quiz : Quiz) (i : Nat)
    (h : i < quiz.questions.length) :
    getPassageForQuestion quiz i =
      some (getPassageForQuestionAmendedSpec quiz (quiz.questions.get ⟨i, h⟩)) ∧
    (hasMultiplePassages quiz = true ↔
      ∃ ps, quiz.passages = some ps ∧ 1 < ps.length) := by
  constructor
  · have hq : quiz.questions.get? i = some (quiz.questions.get ⟨i, h⟩) :=
      List.get?_eq_get h
    simp only [getPassageForQuestion, getPassageForQuestionAmendedSpec, hq]
    rcases hpi : (quiz.questions.get ⟨i, h⟩).passage_index with _ | pi <;>
      rcases hps : quiz.passages with _ | ps <;>
        rcases hp : quiz.passage with _ | p <;>
          simp [jsStrOrNull, hpi, hps, hp]
  · simp only [hasMultiplePassages]
    rcases hps : quiz.passages with _ | ps
    · simp
    · simp

/-- Witness for the amended C5 theorem at a concrete quiz and index. -/
theorem getPassageForQuestion_spec_witness :
    getPassageForQuestion emptyPassageQuiz 0 =
      some (getPassageForQuestionAmendedSpec emptyPassageQuiz
        (emptyPassageQuiz.questions.get ⟨0, by decide⟩)) :=
  (getPassageForQuestion_spec emptyPassageQuiz 0 (by decide)).1

/-- C9: `getPassageForQuestion` is partial in the question index — for every
index at or beyond `quiz.questions.length` the dereference of the
`undefined` array read throws (modelled by `none`), and for every in-bounds
index the function returns a value. -/
theorem getPassageForQuestion_partiality (quiz : Quiz) (i : Nat) :
    (quiz.questions.length ≤ i → getPassageForQuestion quiz i = none) ∧
    (i < quiz.questions.length →
      (getPassageForQuestion quiz i).isSome = true) := by
  constructor
  · intro h
    simp only [getPassageForQuestion]
    rw [List.get?_eq_none.mpr h]
  · intro h
    simp only [getPassageForQuestion]
    rw [List.get?_eq_get h]
    rfl

/-- Witness for the partiality theorem: index 5 crashes on a one-question
quiz, index 0 succeeds. -/
theorem getPassageForQuestion_partiality_witness :
    getPassageForQuestion witnessQuiz 5 = none ∧
    (getPassageForQuestion witnessQuiz 0).isSome = true :=
  ⟨(getPassageForQuestion_partiality witnessQuiz 5).1 (by decide),
   (getPassageForQuestion_partiality witnessQuiz 0).2 (by decide)⟩

/-! ## Response schema (src/services/geminiService.ts lines 4-29) -/

/-- The `Type.*` tags used by the schema literal. -/
inductive SchemaType where
  | object
  | string
  | array
deriving DecidableEq, Repr

/-- A schema node as built by the object literal in the source: a type tag,
named sub-properties, an item schema for arrays, an enumeration of allowed
string values, and the list of required property names. -/
inductive Schema where
  | node (type : SchemaType) (properties : List (String × Schema))
      (items : Option Schema) (enum : List String) (required : List String)

/-- Look up a named property of an object schema. -/
def Schema.getProp : Schema → String → Option Schema
  | .node _ props _ _ _, key =>
    (props.find? (fun p => p.1 == key)).map Prod.snd

/-- The item schema of an array schema. -/
def Schema.getItems : Schema → Option Schema
  | .node _ _ items _ _ => items

/-- The enumeration of a string schema. -/
def Schema.getEnum : Schema → List String
  | .node _ _ _ enum _ => enum

/-- The per-question item schema (src/services/geminiService.ts lines
11-25). -/
def questionItemSchema : Schema :=
  .node .object
    [("type",
       .node .string [] none
         ["multiple-choice", "fill-in-the-blank", "essay"] []),
     ("question_text", .node .string [] none [] []),
     ("image_description", .node .string [] none [] []),
     ("options", .node .array [] (some (.node .string [] none [] [])) [] []),
     ("correct_answer", .node .string [] none [] []),
     ("explanation", .node .string [] none [] [])]
    none [] ["type", "question_text", "correct_answer", "explanation"]

/-- `quizSchema` of src/services/geminiService.ts lines 4-29. -/
def quizSchema : Schema :=
  .node .object
    [("title", .node .string [] none [] []),
     ("passage", .node .string [] none [] []),
     ("questions", .node .array [] (some questionItemSchema) [] [])]
    none [] ["title", "questions"]

/-- The enumeration that `quizSchema` imposes on each question's `type`
field. -/
def questionTypeEnum : Option (List String) :=
  ((quizSchema.getProp "questions").bind Schema.getItems).bind
    (fun s => (s.getProp "type").map Schema.getEnum)

/-- C4: every question type is one of the three fixed values, and the
response schema restricts each question's `type` field to exactly the same
three-string enumeration. -/
theorem questionType_fixed_enum :
    (∀ t : QuestionType, t = QuestionType.multipleChoice ∨
        t = QuestionType.fillInTheBlank ∨ t = QuestionType.essay) ∧
    questionTypeEnum =
      some ["multiple-choice", "fill-in-the-blank", "essay"] ∧
    (∀ t : QuestionType,
        t.toStr ∈ ["multiple-choice", "fill-in-the-blank", "essay"]) ∧
    (∃ t : QuestionType, t.toStr = "multiple-choice") ∧
    (∃ t : QuestionType, t.toStr = "fill-in-the-blank") ∧
    (∃ t : QuestionType, t.toStr = "essay") := by
  refine ⟨?_, rfl, ?_, ⟨.multipleChoice, rfl⟩, ⟨.fillInTheBlank, rfl⟩,
    ⟨.essay, rfl⟩⟩
  · intro t
    cases t
    · exact Or.inl rfl
    · exact Or.inr (Or.inl rfl)
    · exact Or.inr (Or.inr rfl)
  · intro t
    cases t <;> simp [QuestionType.toStr]

/-! ## Quiz generation (src/services/geminiService.ts lines 39-106) -/

/-- JavaScript values produced by `JSON.parse`. -/
inductive JsonValue where
  | null
  | bool (b : Bool)
  | num (n : Int)
  | str (s : Str)
  | arr (items : List JsonValue)
  | obj (fields : List (Str × JsonValue))

/-- JavaScript truthiness of a parsed JSON value (`null`, `false`, `0` and
the empty string are falsy; arrays and objects are always truthy). -/
def jsTruthy : JsonValue → Bool
  | .null => false
  | .bool b => b
  | .num n => decide (n ≠ 0)
  | .str s => decide (s ≠ [])
  | .arr _ => true
  | .obj _ => true

/-- Property read `v.name`: defined only on objects; on anything else the
read yields `undefined` (`none`). -/
def JsonValue.getField : JsonValue → Str → Option JsonValue
  | .obj fields, name => (fields.find? (fun p => p.1 == name)).map Prod.snd
  | _, _ => none

/-- Truthiness of the property read `v.name` (`undefined` is falsy). -/
def fieldTruthy (v : JsonValue) (name : Str) : Bool :=
  match v.getField name with
  | some f => jsTruthy f
  | none => false

/-- `Array.isArray(v.name)`. -/
def isArrayField (v : JsonValue) (name : Str) : Bool :=
  match v.getField name with
  | some (.arr _) => true
  | _ => false

/-- `v.name.length === 0` for an array-valued property. -/
def isEmptyArrayField (v : JsonValue) (name : Str) : Bool :=
  match v.getField name with
  | some (.arr []) => true
  | _ => false

/-- The parts of the generation service's response that `generateQuiz`
reads: `response.text` and the first candidate part's text, each possibly
absent. -/
structure GeminiResponse where
  text : Option Str
  candText : Option Str

def titleKey : Str := "title".toList

def questionsKey : Str := "questions".toList

/-- The message of every error thrown out of `generateQuiz` (line 104). -/
def failedMsg : String := "Failed to generate quiz. See console for details."

/-- The body of the `try` block of `generateQuiz` (lines 63-101), with
`JSON.parse` abstracted as the `parse` oracle (`none` models a thrown
SyntaxError).  `jsonText = response.text?.trim?.() ?? null` is falsy when
the text is absent or trims to the empty string, in which case the candidate
fallback path runs. -/
def generateQuizInner (parse : Str → Option JsonValue)
    (resp : GeminiResponse) : Except String JsonValue :=
  match resp.text.map jsTrim with
  | some (c :: cs) =>
    match parse (c :: cs) with
    | none => .error "SyntaxError: JSON.parse threw"
    | some quizData =>
      if !(jsTruthy quizData) || !(fieldTruthy quizData titleKey)
          || !(isArrayField quizData questionsKey)
          || isEmptyArrayField quizData questionsKey then
        .error "Invalid quiz structure received from Gemini API."
      else
        .ok quizData
  | _ =>
    match resp.candText with
    | some (c :: cs) =>
      match parse (c :: cs) with
      | none => .error "SyntaxError: JSON.parse threw"
      | some parsed =>
        if !(jsTruthy parsed) || !(fieldTruthy parsed titleKey)
            || !(isArrayField parsed questionsKey) then
          .error "Invalid quiz structure received from Gemini (candidate path)."
        else
          .ok parsed
    | _ => .error "No JSON text returned from Gemini."

/-- `generateQuiz` of src/services/geminiService.ts lines 39-106: the
`catch` clause replaces every error thrown in the `try` block by a fresh
error carrying `failedMsg`. -/
def generateQuiz (parse : Str → Option JsonValue)
    (resp : GeminiResponse) : Except String JsonValue :=
  match generateQuizInner parse resp with
  | .ok v => .ok v
  | .error _ => .error failedMsg

theorem generateQuizInner_ok (parse : Str → Option JsonValue)
    (resp : GeminiResponse) (v : JsonValue)
    (h : generateQuizInner parse resp = .ok v) :
    fieldTruthy v titleKey = true ∧ isArrayField v questionsKey = true ∧
    (∀ c cs, resp.text.map jsTrim = some (c :: cs) →
      isEmptyArrayField v questionsKey = false) := by
  unfold generateQuizInner at h
  rcases htext : resp.text.map jsTrim with _ | (_ | ⟨c, cs⟩) <;>
    simp only [htext] at h
  · rcases hcand : resp.candText with _ | (_ | ⟨d, ds⟩) <;>
      simp only [hcand] at h
    · exact Except.noConfusion h
    · exact Except.noConfusion h
    · rcases hp : parse (d :: ds) with _ | parsed <;> simp only [hp] at h
      · exact Except.noConfusion h
      · split at h
        · exact Except.noConfusion h
        · rename_i hcond
          cases h
          simp at hcond
          exact ⟨hcond.1.2, hcond.2, by intro c cs hc; simp at hc⟩
  · rcases hcand : resp.candText with _ | (_ | ⟨d, ds⟩) <;>
      simp only [hcand] at h
    · exact Except.noConfusion h
    · exact Except.noConfusion h
    · rcases hp : parse (d :: ds) with _ | parsed <;> simp only [hp] at h
      · exact Except.noConfusion h
      · split at h
        · exact Except.noConfusion h
        · rename_i hcond
          cases h
          simp at hcond
          exact ⟨hcond.1.2, hcond.2, by intro c cs hc; simp at hc⟩
  · rcases hp : parse (c :: cs) with _ | quizData <;> simp only [hp] at h
    · exact Except.noConfusion h
    · split at h
      · exact Except.noConfusion h
      · rename_i hcond
        cases h
        simp at hcond
        exact ⟨hcond.1.1.2, hcond.1.2, fun _ _ _ => hcond.2⟩

theorem generateQuizInner_noText (parse : Str → Option JsonValue)
    (resp : GeminiResponse)
    (htext : resp.text.map jsTrim = none ∨ resp.text.map jsTrim = some [])
    (hcand : resp.candText = none ∨ resp.candText = some []) :
    generateQuizInner parse resp =
      .error "No JSON text returned from Gemini." := by
  unfold generateQuizInner
  rcases htext with htext | htext <;> rcases hcand with hcand | hcand <;>
    simp only [htext, hcand]

/-- C3: `generateQuiz` either returns a value carrying a (truthy) title and
an array-valued `questions` field, or throws.  When the service response has
no usable text (neither `response.text` nor the candidate text), it throws;
a value accepted on the primary path additionally has a non-empty questions
array; and every thrown error carries exactly `failedMsg`. -/
theorem generateQuiz_error_contract (parse : Str → Option JsonValue)
    (resp : GeminiResponse) :
    (∀ v, generateQuiz parse resp = Except.ok v →
        fieldTruthy v titleKey = true ∧ isArrayField v questionsKey = true) ∧
    ((resp.text.map jsTrim = none ∨ resp.text.map jsTrim = some []) →
      (resp.candText = none ∨ resp.candText = some []) →
      generateQuiz parse resp = Except.error failedMsg) ∧
    (∀ c cs v, resp.text.map jsTrim = some (c :: cs) →
      generateQuiz parse resp = Except.ok v →
      isEmptyArrayField v questionsKey = false) ∧
    (∀ e, generateQuiz parse resp = Except.error e → e = failedMsg) ∧
    ((∃ v, generateQuiz parse resp = Except.ok v) ∨
      generateQuiz parse resp = Except.error failedMsg) := by
  cases hg : generateQuizInner parse resp with
  | ok w =>
    have hok : generateQuiz parse resp = Except.ok w := by
      simp [generateQuiz, hg]
    have hw := generateQuizInner_ok parse resp w hg
    refine ⟨?_, ?_, ?_, ?_, Or.inl ⟨w, hok⟩⟩
    · intro v hv
      rw [hok] at hv
      cases hv
      exact ⟨hw.1, hw.2.1⟩
    · intro htext hcand
      rw [generateQuizInner_noText parse resp htext hcand] at hg
      cases hg
    · intro c cs v hc hv
      rw [hok] at hv
      cases hv
      exact hw.2.2 c cs hc
    · intro e he
      rw [hok] at he
      cases he
  | error e0 =>
    have herr : generateQuiz parse resp = Except.error failedMsg := by
      simp [generateQuiz, hg]
    refine ⟨?_, fun _ _ => herr, ?_, ?_, Or.inr herr⟩
    · intro v hv
      rw [herr] at hv
      cases hv
    · intro c cs v _ hv
      rw [herr] at hv
      cases hv
    · intro e he
      rw [herr] at he
      cases he
      rfl

/-- Witness for the error contract: a response with no text at all makes
`generateQuiz` throw with the fixed message. -/
theorem generateQuiz_error_contract_witness :
    generateQuiz (fun _ => none) ⟨none, none⟩ = Except.error failedMsg :=
  (generateQuiz_error_contract (fun _ => none) ⟨none, none⟩).2.1
    (Or.inl rfl) (Or.inl rfl)

/-! ## Image generation (src/services/geminiService.ts lines 113-190) -/

/-- Word characters of the regex class `\w`. -/
def isWordChar (c : Char) : Bool := c.isAlpha || c.isDigit || c == '_'

/-- Characters kept by `description.replace(/[^\w\s,.-]/g, "")`. -/
def keptChar (c : Char) : Bool :=
  isWordChar c || isJsWhitespace c || c == ',' || c == '.' || c == '-'

/-- The fixed style text appended to the prompt (line 124). -/
def promptStyleText : Str :=
  ", simple flat illustration, educational style, clear and colorful, for children".toList

/-- The remote text-to-image URL built by `generateQuestionImage` (lines
119-125); `uriEncode` abstracts the browser's `encodeURIComponent`. -/
def pollinationsUrl (uriEncode : Str → Str) (description : Str) : Str :=
  let cleanDescription := uriEncode (jsTrim (description.filter keptChar))
  let enhancedPrompt := cleanDescription ++ promptStyleText
  "https://image.pollinations.ai/prompt/".toList ++ uriEncode enhancedPrompt
    ++ "?width=800&height=600&nologo=true".toList

/-- The SVG markup preceding the interpolated description
(src/services/geminiService.ts lines 161-182). -/
def svgPart1 : Str :=
  (r##"
    <svg width="800" height="600" xmlns="http://www.w3.org/2000/svg">
      <rect width="800" height="600" fill="#f0f4f8"/>
      <rect x="50" y="50" width="700" height="500" fill="white" stroke="#cbd5e0" stroke-width="2" rx="8"/>

      <!-- Icon -->
      <circle cx="400" cy="250" r="60" fill="#e2e8f0"/>
      <path d="M 400 220 L 400 260 M 380 240 L 420 240" stroke="#64748b" stroke-width="8" stroke-linecap="round"/>

      <!-- Text -->
      <text x="400" y="350" text-anchor="middle" font-family="Arial, sans-serif" font-size="20" fill="#475569" font-weight="600">
        Image Description:
      </text>
      <foreignObject x="100" y="370" width="600" height="150">
        <div xmlns="http://www.w3.org/1999/xhtml" style="
          font-family: Arial, sans-serif;
          font-size: 16px;
          color: #64748b;
          text-align: center;
          padding: 10px;
          line-height: 1.5;
        ">
          "##).toList

/-- The SVG markup following the interpolated description (lines 184-187). -/
def svgPart2 : Str :=
  (r##"
        </div>
      </foreignObject>
    </svg>
  "##).toList

/-- The truncation `description.length > 150 ? description.substring(0, 150)
+ '...' : description` (line 183). -/
def truncatedDescription (description : Str) : Str :=
  if 150 < description.length then description.take 150 ++ "...".toList
  else description

/-- The SVG document interpolated with the (truncated) description. -/
def placeholderSvg (description : Str) : Str :=
  svgPart1 ++ truncatedDescription description ++ svgPart2

/-- `generatePlaceholderImage` of lines 159-190; `btoa` abstracts the
browser's base64 encoder. -/
def generatePlaceholderImage (btoa : Str → Str) (description : Str) : Str :=
  "data:image/svg+xml;base64,".toList ++ btoa (placeholderSvg description)

/-- Which of the three promise callbacks installed by
`generateQuestionImage` settles the promise first: the probe image's `load`
event, its `error` event, or the 50-second timeout. -/
inductive ImageLoadOutcome where
  | loaded
  | failed
  | timedOut
deriving DecidableEq

/-- `generateQuestionImage` of src/services/geminiService.ts lines 113-154.
An `Except.error` would model a rejected promise; every branch of the source
calls `resolve`, never `reject`. -/
def generateQuestionImage (uriEncode btoa : Str → Str)
    (outcome : ImageLoadOutcome) (description : Str) : Except Str Str :=
  if description = [] then .ok []
  else
    match outcome with
    | .loaded => .ok (pollinationsUrl uriEncode description)
    | .failed => .ok (generatePlaceholderImage btoa description)
    | .timedOut => .ok (generatePlaceholderImage btoa description)

/-- C2: `generateQuestionImage` always resolves — with the remote
text-to-image URL on a successful load, and with the client-generated
placeholder (a `data:image/svg+xml` URL built from the description) when the
image fails to load or the 50-second timeout fires; an empty description
yields the empty string. -/
theorem generateQuestionImage_contract (uriEncode btoa : Str → Str)
    (outcome : ImageLoadOutcome) (description : Str) :
    (∃ s, generateQuestionImage uriEncode btoa outcome description =
        Except.ok s) ∧
    (description = [] →
      generateQuestionImage uriEncode btoa outcome description =
        Except.ok []) ∧
    (description ≠ [] →
      (outcome = ImageLoadOutcome.loaded →
        generateQuestionImage uriEncode btoa outcome description =
          Except.ok (pollinationsUrl uriEncode description)) ∧
      ((outcome = ImageLoadOutcome.failed ∨
          outcome = ImageLoadOutcome.timedOut) →
        generateQuestionImage uriEncode btoa outcome description =
          Except.ok (generatePlaceholderImage btoa description))) ∧
    "data:image/svg+xml;base64,".toList.isPrefixOf
        (generatePlaceholderImage btoa description) = true := by
  refine ⟨?_, ?_, ?_, ?_⟩
  · unfold generateQuestionImage
    by_cases hd : description = []
    · exact ⟨[], by simp [hd]⟩
    · cases outcome <;> simp [hd]
  · intro hd
    simp [generateQuestionImage, hd]
  · intro hd
    constructor
    · intro ho
      simp [generateQuestionImage, hd, ho]
    · intro ho
      rcases ho with ho | ho <;> simp [generateQuestionImage, hd, ho]
  · rw [List.isPrefixOf_iff_prefix]
    exact ⟨btoa (placeholderSvg description), rfl⟩

/-- Witness: a failed load on a non-empty description resolves with the
placeholder image. -/
theorem generateQuestionImage_contract_witness :
    generateQuestionImage id id ImageLoadOutcome.failed "cat".toList =
      Except.ok (generatePlaceholderImage id "cat".toList) :=
  ((generateQuestionImage_contract id id ImageLoadOutcome.failed
      "cat".toList).2.2.1 (by decide)).2 (Or.inl rfl)

/-! ## Quiz creation (src/pages/CreateQuizPage.tsx, `handleSubmit`,
lines 303-352) -/

/-- The selectable category: a concrete question type or `mixed`. -/
inductive QuizCategory where
  | ofType (t : QuestionType)
  | mixed
deriving DecidableEq

/-- The `formData` state of `CreateQuizPage`. -/
structure CreateQuizForm where
  quizTitle : Str
  classLevel : Str
  topic : Str
  questionCount : Str
  quizCategory : QuizCategory
  description : Str
deriving DecidableEq

/-- The argument tuple passed to the generation service (lines 322-329);
`questionCount` is recorded as the raw form string on which the source
applies `parseInt`. -/
structure GenerateArgs where
  quizTitle : Str
  classLevel : Str
  topic : Str
  questionCount : Str
  quizCategory : QuizCategory
  description : Str
deriving DecidableEq

/-- The row inserted into the `quizzes` table (lines 331-337). -/
structure InsertRow (A : Type) where
  quiz_data : A
  user_id : Str
  description : Str
  type : QuizCategory

/-- The observable effects of one run of `CreateQuizPage.handleSubmit`:
the final error message (if `setError` ran last), whether and with which
arguments the generation service was called, whether and with which row the
insert was attempted, and the generated quiz (with its new row id) on full
success. -/
structure CreateSubmitTrace (A : Type) where
  errorMsg : Option Str
  generateCalled : Option GenerateArgs
  insertCalled : Option (InsertRow A)
  generatedQuiz : Option (A × Str)

/-- `handleSubmit` of src/pages/CreateQuizPage.tsx lines 303-352, with the
two external calls abstracted by their results: `generateResult` is what
`generateQuiz` returns or throws, `insertResult` is the inserted row id or
the insert error. -/
def createQuizHandleSubmit {A : Type} (generateResult : Except Str A)
    (insertResult : Except Str Str) (user : Option Str)
    (form : CreateQuizForm) : CreateSubmitTrace A :=
  match user with
  | none =>
    { errorMsg := some "You must be logged in to create a quiz.".toList
      generateCalled := none
      insertCalled := none
      generatedQuiz := none }
  | some uid =>
    if jsTrim form.quizTitle = [] then
      { errorMsg := some "Please enter a Quiz Title.".toList
        generateCalled := none
        insertCalled := none
        generatedQuiz := none }
    else
      let args : GenerateArgs :=
        { quizTitle := form.quizTitle
          classLevel := form.classLevel
          topic := form.topic
          questionCount := form.questionCount
          quizCategory := form.quizCategory
          description := form.description }
      match generateResult with
      | .error msg =>
        { errorMsg := some ("Error: ".toList ++
            (if msg = [] then "Unknown error".toList else msg))
          generateCalled := some args
          insertCalled := none
          generatedQuiz := none }
      | .ok quizData =>
        let row : InsertRow A :=
          { quiz_data := quizData
            user_id := uid
            description := form.description
            type := form.quizCategory }
        match insertResult with
        | .error msg =>
          { errorMsg := some ("Error: ".toList ++
              (if msg = [] then "Unknown error".toList else msg))
            generateCalled := some args
            insertCalled := some row
            generatedQuiz := none }
        | .ok newId =>
          { errorMsg := none
            generateCalled := some args
            insertCalled := some row
            generatedQuiz := some (quizData, newId) }

/-- C6: with no authenticated user, `handleSubmit` sets the login error and
performs neither the generation call nor the insert; and any run in which
generation or insertion happens had a present user and a non-blank quiz
title. -/
theorem createQuiz_requires_auth {A : Type} (generateResult : Except Str A)
    (insertResult : Except Str Str) (form : CreateQuizForm) :
    (createQuizHandleSubmit generateResult insertResult none form).errorMsg =
        some "You must be logged in to create a quiz.".toList ∧
    (createQuizHandleSubmit generateResult insertResult none form).generateCalled
        = none ∧
    (createQuizHandleSubmit generateResult insertResult none form).insertCalled
        = none ∧
    (∀ user : Option Str,
      ((createQuizHandleSubmit generateResult insertResult user form).generateCalled
          ≠ none ∨
        (createQuizHandleSubmit generateResult insertResult user form).insertCalled
          ≠ none) →
      (∃ uid, user = some uid) ∧ jsTrim form.quizTitle ≠ []) := by
  refine ⟨rfl, rfl, rfl, ?_⟩
  intro user hcall
  cases user with
  | none =>
    exfalso
    rcases hcall with hcall | hcall <;> exact hcall rfl
  | some uid =>
    by_cases ht : jsTrim form.quizTitle = []
    · exfalso
      rcases hcall with hcall | hcall <;>
        simp [createQuizHandleSubmit, ht] at hcall
    · exact ⟨⟨uid, rfl⟩, ht⟩

/-- A concrete filled-in form for the witness. -/
def witnessForm : CreateQuizForm :=
  { quizTitle := "Adjectives Exercise 1".toList
    classLevel := "Kelas 4".toList
    topic := "Adjectives".toList
    questionCount := "5".toList
    quizCategory := QuizCategory.ofType QuestionType.multipleChoice
    description := [] }

/-- Witness: a logged-in run that reached the generation call indeed had a
present user and a non-blank title. -/
theorem createQuiz_requires_auth_witness :
    (∃ uid, (some "u1".toList : Option Str) = some uid) ∧
      jsTrim witnessForm.quizTitle ≠ [] :=
  (createQuiz_requires_auth (A := Unit) (Except.ok ()) (Except.ok "id1".toList)
      witnessForm).2.2.2 (some "u1".toList)
    (Or.inl (by decide))

/-! ## Shareable links (src/unnamed HomePage `handleLinkSubmit` and
src/pages/QuizPage.tsx `fetchQuiz`) -/

/-- The part of a parsed `URL` object that `handleLinkSubmit` reads: its
`hash` (including the leading `#`, or empty when the URL has none). -/
structure UrlParts where
  hash : Str

/-- The observable outcome of `handleLinkSubmit`: a router navigation or an
`alert`. -/
inductive NavAction where
  | navigate (path : Str)
  | alerted (message : Str)
deriving DecidableEq

/-- `handleLinkSubmit` of the HomePage (src/unnamed/part_004 lines 8-32);
`parseUrl` abstracts the `new URL(link)` constructor, `none` modelling the
TypeError it throws on input that is not a full URL. -/
def handleLinkSubmit (parseUrl : Str → Option UrlParts) (link : Str) :
    NavAction :=
  match parseUrl link with
  | some url =>
    let path := url.hash.drop 1
    if "/quiz/".toList.isPrefixOf path then NavAction.navigate path
    else NavAction.alerted "Invalid quiz link format.".toList
  | none =>
    let p0 := jsTrim link
    let path := if "#".toList.isPrefixOf p0 then p0.drop 1 else p0
    if "/quiz/".toList.isPrefixOf path then NavAction.navigate path
    else NavAction.alerted "Please paste a valid quiz link.".toList

/-- The path the claim describes: the URL hash with the leading `#` removed
when the input parses as a URL, otherwise the trimmed raw input with any
leading `#` removed. -/
def extractedPath (parseUrl : Str → Option UrlParts) (link : Str) : Str :=
  match parseUrl link with
  | some url => url.hash.drop 1
  | none =>
    let p0 := jsTrim link
    if "#".toList.isPrefixOf p0 then p0.drop 1 else p0

/-- The alert message of the branch taken by `handleLinkSubmit`. -/
def linkAlertMessage (parseUrl : Str → Option UrlParts) (link : Str) : Str :=
  match parseUrl link with
  | some _ => "Invalid quiz link format.".toList
  | none => "Please paste a valid quiz link.".toList

theorem handleLinkSubmit_shape (parseUrl : Str → Option UrlParts)
    (link : Str) :
    handleLinkSubmit parseUrl link =
      if "/quiz/".toList.isPrefixOf (extractedPath parseUrl link) then
        NavAction.navigate (extractedPath parseUrl link)
      else NavAction.alerted (linkAlertMessage parseUrl link) := by
  unfold handleLinkSubmit extractedPath linkAlertMessage
  rcases parseUrl link with _ | url
  · rfl
  · rfl

/-- The outcome of `fetchQuiz` in `QuizPage`. -/
inductive FetchResult where
  | fetchError (message : Str)
  | fetched (quiz : Quiz)

/-- `fetchQuiz` of src/pages/QuizPage.tsx lines 27-64: selects the row with
the given quiz id from the `quizzes` store and attaches the row id to the
fetched quiz data.  `store` abstracts the backend query (keyed by the `eq`
filter on `id`); the second argument is the ambient authentication state,
which the page never reads. -/
def fetchQuiz (store : Str → Except Str Quiz) (_authState : Option Str)
    (quizId : Option Str) : FetchResult :=
  match quizId with
  | none => FetchResult.fetchError "No quiz ID provided.".toList
  | some qid =>
    match store qid with
    | .error m =>
      FetchResult.fetchError
        (if m = [] then "Failed to fetch quiz.".toList else m)
    | .ok quizData => FetchResult.fetched { quizData with id := qid }

/-- C7: `handleLinkSubmit` navigates exactly when the extracted path starts
with `/quiz/`, and it navigates to that very path, alerting otherwise; and
`fetchQuiz` is independent of the authentication state and serves the quiz
row identified by the quiz id in the path. -/
theorem shareable_link_access (parseUrl : Str → Option UrlParts) (link : Str)
    (store : Str → Except Str Quiz) (a1 a2 : Option Str)
    (quizId : Option Str) :
    ((∃ p, handleLinkSubmit parseUrl link = NavAction.navigate p) ↔
      "/quiz/".toList.isPrefixOf (extractedPath parseUrl link) = true) ∧
    (∀ p, handleLinkSubmit parseUrl link = NavAction.navigate p →
      p = extractedPath parseUrl link) ∧
    ("/quiz/".toList.isPrefixOf (extractedPath parseUrl link) = false →
      ∃ m, handleLinkSubmit parseUrl link = NavAction.alerted m) ∧
    fetchQuiz store a1 quizId = fetchQuiz store a2 quizId ∧
    (∀ qid q, quizId = some qid →
      fetchQuiz store a1 quizId = FetchResult.fetched q →
      ∃ qd, store qid = Except.ok qd ∧ q = { qd with id := qid }) := by
  have hshape := handleLinkSubmit_shape parseUrl link
  refine ⟨?_, ?_, ?_, rfl, ?_⟩
  · rw [hshape]
    rcases hp : "/quiz/".toList.isPrefixOf (extractedPath parseUrl link) <;>
      simp [hp]
  · intro p hp
    rw [hshape] at hp
    rcases hb : "/quiz/".toList.isPrefixOf (extractedPath parseUrl link) <;>
      rw [hb] at hp <;> simp at hp
    exact hp.symm
  · intro hp
    rw [hshape, hp]
    exact ⟨_, rfl⟩
  · intro qid q hq hf
    subst hq
    simp only [fetchQuiz] at hf
    rcases hs : store qid with m | qd <;> rw [hs] at hf
    · simp at hf
    · cases hf
      exact ⟨qd, rfl, rfl⟩

/-- Witness: a pasted path starting with `/quiz/` navigates to exactly the
extracted path. -/
theorem shareable_link_access_witness :
    "/quiz/abc".toList = extractedPath (fun _ => none) "/quiz/abc".toList :=
  (shareable_link_access (fun _ => none) "/quiz/abc".toList
      (fun _ => Except.error []) none (some []) none).2.1
    "/quiz/abc".toList (by decide)

/-! ## Quiz deletion (src/contexts/QuizContext.tsx lines 76-100) -/

/-- An entry of the provider state `quizzes`: the spread `quiz_data` plus
the row `id` and `created_at`. -/
structure QuizWithData where
  id : Str
  created_at : Str
  data : Quiz

/-- The observable effects of one call to the provider's `deleteQuiz`:
whether it threw before the `try` block, whether the `catch` clause showed
its alert, and the resulting `quizzes` state. -/
structure DeleteQuizEffect where
  threw : Option Str
  alerted : Bool
  quizzes : List QuizWithData

/-- `deleteQuiz` of src/contexts/QuizContext.tsx lines 76-95, with the
backend delete call abstracted by its result.  On success the function hits
`return;` (line 89) before the `setQuizzes` call on line 90, so that state
update is dead code; a backend error is caught by the `catch` clause, which
logs and shows an alert without rethrowing.  In every branch the `quizzes`
state is returned unchanged. -/
def deleteQuiz (backendDelete : Str → Except Str Unit) (user : Option Str)
    (id : Str) (quizzes : List QuizWithData) : DeleteQuizEffect :=
  match user with
  | none =>
    { threw := some "User not authenticated".toList
      alerted := false
      quizzes := quizzes }
  | some _ =>
    match backendDelete id with
    | .ok _ => { threw := none, alerted := false, quizzes := quizzes }
    | .error _ => { threw := none, alerted := true, quizzes := quizzes }

/-- The state update written on line 90 of src/contexts/QuizContext.tsx,
unreachable because it follows the `return` on line 89. -/
def deleteQuizDeadUpdate (id : Str) (quizzes : List QuizWithData) :
    List QuizWithData :=
  quizzes.filter (fun q => !(q.id == id))

/-- `removeQuizFromState` of src/contexts/QuizContext.tsx lines 98-100. -/
def removeQuizFromState (id : Str) (quizzes : List QuizWithData) :
    List QuizWithData :=
  quizzes.filter (fun q => !(q.id == id))

/-- C10: `deleteQuiz` leaves the `quizzes` state unchanged in every branch
(success, backend failure, and the unauthenticated throw); a backend error
is caught and surfaces as an alert, not a rethrow; and `removeQuizFromState`
keeps exactly the entries whose id differs from the given one, as a sublist
of the original state. -/
theorem deleteQuiz_frame (backendDelete : Str → Except Str Unit)
    (user : Option Str) (id : Str) (quizzes : List QuizWithData) :
    (deleteQuiz backendDelete user id quizzes).quizzes = quizzes ∧
    (∀ e, backendDelete id = Except.error e → ∀ u, user = some u →
      (deleteQuiz backendDelete user id quizzes).threw = none ∧
      (deleteQuiz backendDelete user id quizzes).alerted = true) ∧
    (∀ q, q ∈ removeQuizFromState id quizzes ↔
      (q ∈ quizzes ∧ ¬(q.id = id))) ∧
    (removeQuizFromState id quizzes).Sublist quizzes := by
  refine ⟨?_, ?_, ?_, List.filter_sublist quizzes⟩
  · cases user with
    | none => rfl
    | some u =>
      simp only [deleteQuiz]
      cases backendDelete id <;> rfl
  · intro e he u hu
    subst hu
    simp [deleteQuiz, he]
  · intro q
    simp [removeQuizFromState, List.mem_filter]

/-- Witness: a failed backend delete with a logged-in user alerts without
rethrowing. -/
theorem deleteQuiz_frame_witness :
    (deleteQuiz (fun _ => Except.error "boom".toList) (some "u".toList)
        "q1".toList []).threw = none ∧
    (deleteQuiz (fun _ => Except.error "boom".toList) (some "u".toList)
        "q1".toList []).alerted = true :=
  (deleteQuiz_frame (fun _ => Except.error "boom".toList) (some "u".toList)
      "q1".toList []).2.1 "boom".toList rfl "u".toList rfl

end QuizGen
